import Mathlib

/-!
Shallow embedding of the C header src/src/debug.h (a minimal logging
facility) and proofs of the specification claims about it.

The header's process-wide mutable state (the variables log_level and
log_file) is modelled by an explicit LoggerState record threaded through
the operations.  A FILE pointer is modelled as an Option Nat (none is the
NULL pointer, some h an open handle).  I/O is modelled by returning the
record that would be written: each emitting call returns an Option Output
describing the sink written to, the exact bytes of the rendered line, and
whether the sink was flushed; none means nothing was written (and, since
the rendering sits under the level test exactly as in the source macro,
nothing was formatted either).
-/

namespace DebugH

/-- The LogLevel enumeration of debug.h: LOG_TRACE, LOG_DEBUG, LOG_INFO,
LOG_WARN, LOG_ERROR, with the C integer values 0..4. -/
inductive LogLevel where
  | trace
  | debug
  | info
  | warn
  | error
deriving DecidableEq, Repr

/-- The integer value the C compiler assigns to each enumerator. -/
def LogLevel.toNat : LogLevel → Nat
  | .trace => 0
  | .debug => 1
  | .info => 2
  | .warn => 3
  | .error => 4

/-- The process-wide logger state of debug.h:
"static LogLevel log_level = LOG_TRACE;" and
"static FILE *log_file = NULL;". -/
structure LoggerState where
  log_level : LogLevel
  log_file : Option Nat
deriving DecidableEq, Repr

/-- The initial values of the two static variables. -/
def initState : LoggerState := { log_level := LogLevel.trace, log_file := none }

/-- log_set_level(level): "(log_level = (level))". -/
def log_set_level (s : LoggerState) (level : LogLevel) : LoggerState :=
  { s with log_level := level }

/-- log_set_file(file): "(log_file = fopen((file), \x7ba\x7d))".  The outcome of
the fopen call is passed in as openResult: some h when the path opened,
none when fopen returned NULL.  The result of the assignment is stored
unconditionally and no error is reported: the function returns only the
new state. -/
def log_set_file (s : LoggerState) (openResult : Option Nat) : LoggerState :=
  { s with log_file := openResult }

/-- The string table of get_log_level_str:
static const char *level_str[] = \x7b TRACE, DEBUG, INFO, WARN, ERROR \x7d. -/
def level_str : List String := ["TRACE", "DEBUG", "INFO", "WARN", "ERROR"]

/-- The raw array access "level_str[n]" for an arbitrary integer index n:
in C an index past the end of the array is undefined behaviour, modelled
here by none. -/
def get_log_level_str_at (n : Nat) : Option String := level_str.get? n

/-- get_log_level_str(level): returns level_str[level].  A defined
enumerator always indexes inside the array, so the default value of getD
is never used. -/
def get_log_level_str (level : LogLevel) : String :=
  (get_log_level_str_at level.toNat).getD ""

/-- An argument passed to fprintf after the format string: a C string
(matched by a %s conversion) or an int (matched by %d). -/
inductive PrintfArg where
  | str (s : String)
  | int (n : Int)
deriving DecidableEq, Repr

/-- Interpreter for the subset of printf conversions used by debug.h
(%s and %d, plus literal characters).  A conversion whose argument has
the wrong type, an incomplete conversion, or a missing argument is
undefined behaviour in C and yields none; surplus arguments are evaluated
and ignored, as in C. -/
def sprintf_go : List Char → List PrintfArg → Option String
  | [], _ => some ""
  | '%' :: 's' :: rest, PrintfArg.str s :: args =>
      (sprintf_go rest args).map (fun t => s ++ t)
  | '%' :: 'd' :: rest, PrintfArg.int n :: args =>
      (sprintf_go rest args).map (fun t => toString n ++ t)
  | '%' :: _, _ => none
  | c :: rest, args =>
      (sprintf_go rest args).map (fun t => String.singleton c ++ t)

/-- fprintf's rendering of a format string against its arguments. -/
def sprintf (fmt : String) (args : List PrintfArg) : Option String :=
  sprintf_go fmt.data args

/-- The prefix format of every log line:
#define LOG_FMT "%s [%s] (%s:%d) ". -/
def LOG_FMT : String := "%s [%s] (%s:%d) "

/-- The argument list LOG_ARGS(LOG_LVL): get_log_level_str(LOG_LVL),
get_time_str(), __FILE__, __LINE__.  The timestamp string returned by
get_time_str and the values of __FILE__ and __LINE__ are parameters. -/
def LOG_ARGS (level : LogLevel) (ts srcfile : String) (srcline : Int) :
    List PrintfArg :=
  [PrintfArg.str (get_log_level_str level), PrintfArg.str ts,
   PrintfArg.str srcfile, PrintfArg.int srcline]

/-- The bytes written by the three consecutive fprintf calls of log_log:
the LOG_FMT prefix, then the already-formatted message, then a newline. -/
def log_line (level : LogLevel) (ts srcfile : String) (srcline : Int)
    (msg : String) : Option String :=
  (sprintf LOG_FMT (LOG_ARGS level ts srcfile srcline)).map
    (fun p => p ++ msg ++ "\n")

/-- Where a record was written: the open log file or the stderr stream. -/
inductive Sink where
  | file (h : Nat)
  | stderr
deriving DecidableEq, Repr

/-- One emitted log record: the severity it was logged at, the sink it
went to, the exact bytes written, and whether fflush was called on the
sink right after the write. -/
structure Output where
  level : LogLevel
  sink : Sink
  line : String
  flushed : Bool
deriving DecidableEq, Repr

/-- log_log(level, ...): if level >= log_level, write the LOG_FMT prefix,
the message and a newline to log_file when it is non-NULL (then fflush
it) and to stderr otherwise (no fflush); if level < log_level do nothing.
The macro assigns to neither log_level nor log_file, so the state
component of the result is the input state. -/
def log_log (s : LoggerState) (ts srcfile : String) (srcline : Int)
    (level : LogLevel) (msg : String) : LoggerState × Option Output :=
  (s,
    if s.log_level.toNat ≤ level.toNat then
      match log_line level ts srcfile srcline msg with
      | some ln =>
        match s.log_file with
        | some h => some { level := level, sink := Sink.file h, line := ln,
                           flushed := true }
        | none => some { level := level, sink := Sink.stderr, line := ln,
                         flushed := false }
      | none => none
    else none)

/-- log_trace(...): log_log(LOG_TRACE, ...). -/
def log_trace (s : LoggerState) (ts srcfile : String) (srcline : Int)
    (msg : String) : LoggerState × Option Output :=
  log_log s ts srcfile srcline LogLevel.trace msg

/-- log_debug(...): log_log(LOG_DEBUG, ...). -/
def log_debug (s : LoggerState) (ts srcfile : String) (srcline : Int)
    (msg : String) : LoggerState × Option Output :=
  log_log s ts srcfile srcline LogLevel.debug msg

/-- log_info(...): log_log(LOG_INFO, ...). -/
def log_info (s : LoggerState) (ts srcfile : String) (srcline : Int)
    (msg : String) : LoggerState × Option Output :=
  log_log s ts srcfile srcline LogLevel.info msg

/-- log_warn(...): log_log(LOG_WARN, ...). -/
def log_warn (s : LoggerState) (ts srcfile : String) (srcline : Int)
    (msg : String) : LoggerState × Option Output :=
  log_log s ts srcfile srcline LogLevel.warn msg

/-- log_error(...): log_log(LOG_ERROR, ...). -/
def log_error (s : LoggerState) (ts srcfile : String) (srcline : Int)
    (msg : String) : LoggerState × Option Output :=
  log_log s ts srcfile srcline LogLevel.error msg

/-- Result of executing a guard macro: the record it emitted (if any),
the value of errno afterwards, and whether control jumped to the error
label. -/
structure CheckResult where
  record : Option Output
  errno : Nat
  jumped : Bool
deriving DecidableEq, Repr

/-- check(A, M, ...): "if (!(A)) \x7b log_error(M, ...); errno = 0;
goto error; \x7d".  errno0 is the value of errno on entry; the formatted
message M is passed as msg. -/
def check (s : LoggerState) (errno0 : Nat) (ts srcfile : String)
    (srcline : Int) (a : Bool) (msg : String) : CheckResult :=
  if a then { record := none, errno := errno0, jumped := false }
  else { record := (log_error s ts srcfile srcline msg).2, errno := 0,
         jumped := true }

/-- check_debug(A, M, ...): "if (!(A)) \x7b log_debug(M, ...); errno = 0;
goto error; \x7d". -/
def check_debug (s : LoggerState) (errno0 : Nat) (ts srcfile : String)
    (srcline : Int) (a : Bool) (msg : String) : CheckResult :=
  if a then { record := none, errno := errno0, jumped := false }
  else { record := (log_debug s ts srcfile srcline msg).2, errno := 0,
         jumped := true }

/-- The message literal hard-coded in the check_mem macro, trailing
period included. -/
def check_mem_msg : String := "Out of memory."

/-- The fixed message the specification ascribes to check_mem, quoted
there without a trailing period.  Kept separate from check_mem_msg so the
two can be compared. -/
def spec_check_mem_msg : String := "Out of memory"

/-- check_mem(A): check((A), "Out of memory."). -/
def check_mem (s : LoggerState) (errno0 : Nat) (ts srcfile : String)
    (srcline : Int) (a : Bool) : CheckResult :=
  check s errno0 ts srcfile srcline a check_mem_msg

/-- A broken-down calendar time (struct tm), already converted to the
human-readable ranges that the %Y %m %d %H %M %S conversions print. -/
structure Tm where
  year : Nat
  month : Nat
  day : Nat
  hour : Nat
  minute : Nat
  second : Nat
deriving DecidableEq, Repr

/-- A printf/strftime numeric field of minimum width w, zero padded. -/
def zero_pad (w : Nat) (n : Nat) : String :=
  String.mk (List.replicate (w - (toString n).length) '0') ++ toString n

/-- The text the strftime format "%Y-%m-%d %H:%M:%S" expands to. -/
def strftime_render (t : Tm) : String :=
  zero_pad 4 t.year ++ "-" ++ zero_pad 2 t.month ++ "-" ++ zero_pad 2 t.day
    ++ " " ++ zero_pad 2 t.hour ++ ":" ++ zero_pad 2 t.minute ++ ":"
    ++ zero_pad 2 t.second

/-- strftime(s, maxsize, "%Y-%m-%d %H:%M:%S", t) per C99 7.23.3.5: the
expansion is stored only if it fits in maxsize bytes including the
terminating null character; otherwise zero is returned and the contents
of the array are indeterminate (modelled by none). -/
def strftime (maxsize : Nat) (t : Tm) : Option String :=
  if (strftime_render t).length + 1 ≤ maxsize then some (strftime_render t)
  else none

/-- The declared size of the static buffer: "static char time_str[20]". -/
def time_str_size : Nat := 20

/-- get_time_str(): calls strftime(time_str, sizeof(time_str) - 1,
"%Y-%m-%d %H:%M:%S", t) on the current local time t and returns the
buffer; some str when strftime succeeded and stored str, none when
strftime failed and left the buffer contents indeterminate. -/
def get_time_str (t : Tm) : Option String :=
  strftime (time_str_size - 1) t

/-! Concrete sample inputs used to instantiate the theorems below. -/

/-- A sample timestamp string, as it would look had strftime succeeded. -/
def exTs : String := "2024-03-01 10:15:22"

/-- A sample value of __FILE__. -/
def exFile : String := "x.c"

/-- A sample message body, already formatted. -/
def exMsg : String := "hello world"

/-- A sample guard message. -/
def exReason : String := "reason"

/-- A sample broken-down time. -/
def exTm : Tm :=
  { year := 2024, month := 3, day := 1, hour := 10, minute := 15,
    second := 22 }

/-! Helper lemmas shared by the claim theorems. -/

/-- Every defined enumerator has integer value at most LOG_ERROR = 4, so
an Error-level message always passes the level filter. -/
theorem LogLevel.toNat_le_four (l : LogLevel) : l.toNat ≤ 4 := by
  cases l <;> decide

/-- The three fprintf calls of log_log always succeed and produce the
concatenation of the level name, the bracketed timestamp, the
parenthesised file and line, the message, and a newline. -/
theorem log_line_eq (level : LogLevel) (ts srcfile : String) (srcline : Int)
    (msg : String) :
    log_line level ts srcfile srcline msg =
      some (get_log_level_str level ++ " [" ++ ts ++ "] (" ++ srcfile ++ ":"
        ++ toString srcline ++ ") " ++ msg ++ "\n") := by
  simp only [log_line, sprintf, LOG_FMT, LOG_ARGS]
  norm_num [sprintf_go, String.singleton]
  apply String.ext
  simp [String.data_append]

/-- A false condition makes check emit an Error-level record whose line
contains the message, whatever the stored minimum level: LOG_ERROR is the
greatest enumerator, so the level filter always passes. -/
theorem check_false_record (s : LoggerState) (errno0 : Nat)
    (ts srcfile : String) (srcline : Int) (msg : String) :
    ∃ out, (check s errno0 ts srcfile srcline false msg).record
        = some out ∧
      out.level = LogLevel.error ∧ ∃ a b, out.line = a ++ msg ++ b := by
  have hle : s.log_level.toNat ≤ LogLevel.error.toNat :=
    LogLevel.toNat_le_four s.log_level
  cases hf : s.log_file with
  | none =>
    simp [check, log_error, log_log, hle, hf, log_line_eq]
    exact ⟨get_log_level_str LogLevel.error ++ " [" ++ ts ++ "] ("
      ++ srcfile ++ ":" ++ toString srcline ++ ") ", "\n", rfl⟩
  | some hdl =>
    simp [check, log_error, log_log, hle, hf, log_line_eq]
    exact ⟨get_log_level_str LogLevel.error ++ " [" ++ ts ++ "] ("
      ++ srcfile ++ ":" ++ toString srcline ++ ") ", "\n", rfl⟩

/-! Claim theorems. -/

/-- C1: For every minimum level stored in log_level and every message
level passed to log_log, a record is written to the sink if and only if
the message level is greater than or equal to the minimum level; when the
message level is strictly lower, nothing is written (the result is none),
and since the rendering sits under the level test in the definition of
log_log exactly as in the source macro, no formatting is performed
either. -/
theorem level_filtering (s : LoggerState) (ts srcfile : String)
    (srcline : Int) (level : LogLevel) (msg : String) :
    (∃ out, (log_log s ts srcfile srcline level msg).2 = some out) ↔
      s.log_level.toNat ≤ level.toNat := by
  constructor
  · rintro ⟨out, h⟩
    by_contra hlt
    simp [log_log, hlt] at h
  · intro hle
    cases hf : s.log_file <;>
      simp [log_log, hle, hf, log_line_eq]

/-- C2: For every emitted record, the rendered line is exactly the level
name, a space, the timestamp in square brackets, a space, the source file
name and line number in parentheses separated by a colon, a space, the
formatted message, and a terminating newline. -/
theorem format_exactness (s : LoggerState) (ts srcfile : String)
    (srcline : Int) (level : LogLevel) (msg : String)
    (h : s.log_level.toNat ≤ level.toNat) :
    ∃ out, (log_log s ts srcfile srcline level msg).2 = some out ∧
      out.line = get_log_level_str level ++ " [" ++ ts ++ "] (" ++ srcfile
        ++ ":" ++ toString srcline ++ ") " ++ msg ++ "\n" := by
  cases hf : s.log_file <;>
    simp [log_log, h, hf, log_line_eq]

/-- Witness for C2 at the spec's example: level Info, file "x.c", line
10, message "hello world"; the line is
"INFO [2024-03-01 10:15:22] (x.c:10) hello world\n". -/
theorem format_exactness_witness :
    ∃ out, (log_log initState exTs exFile 10 LogLevel.info exMsg).2
        = some out ∧
      out.line = "INFO [2024-03-01 10:15:22] (x.c:10) hello world\n" := by
  obtain ⟨out, h1, h2⟩ :=
    format_exactness initState exTs exFile 10 LogLevel.info exMsg
      (by decide)
  exact ⟨out, h1, by rw [h2]; rfl⟩

/-- C6: For every emitted record, the sink is flushed immediately after
the write if and only if an explicit file sink was set; records written
to stderr are not flushed. -/
theorem flush_iff_file_sink (s : LoggerState) (ts srcfile : String)
    (srcline : Int) (level : LogLevel) (msg : String) (out : Output)
    (h : (log_log s ts srcfile srcline level msg).2 = some out) :
    out.flushed = true ↔ ∃ hfile, out.sink = Sink.file hfile := by
  by_cases hle : s.log_level.toNat ≤ level.toNat
  · cases hf : s.log_file with
    | none =>
      simp [log_log, hle, hf, log_line_eq] at h
      simp [← h]
    | some hdl =>
      simp [log_log, hle, hf, log_line_eq] at h
      simp [← h]
  · simp [log_log, hle] at h

/-- Witness for C6: a concrete record written to an open file sink is
flushed. -/
theorem flush_iff_file_sink_witness :
    ({ level := LogLevel.info, sink := Sink.file 3,
       line := "INFO [2024-03-01 10:15:22] (x.c:10) hello world\n",
       flushed := true } : Output).flushed = true ↔
      ∃ hfile, ({ level := LogLevel.info, sink := Sink.file 3,
                  line := "INFO [2024-03-01 10:15:22] (x.c:10) hello world\n",
                  flushed := true } : Output).sink = Sink.file hfile :=
  flush_iff_file_sink { log_level := LogLevel.trace, log_file := some 3 }
    exTs exFile 10 LogLevel.info exMsg _ (by rfl)

/-- C10: log_log and all five convenience wrappers leave the logger
state unchanged: log_level and log_file after the call equal their values
before the call, whether or not a record was emitted. -/
theorem log_log_frame (s : LoggerState) (ts srcfile : String)
    (srcline : Int) (level : LogLevel) (msg : String) :
    (log_log s ts srcfile srcline level msg).1.log_level = s.log_level ∧
    (log_log s ts srcfile srcline level msg).1.log_file = s.log_file ∧
    (log_trace s ts srcfile srcline msg).1 = s ∧
    (log_debug s ts srcfile srcline msg).1 = s ∧
    (log_info s ts srcfile srcline msg).1 = s ∧
    (log_warn s ts srcfile srcline msg).1 = s ∧
    (log_error s ts srcfile srcline msg).1 = s :=
  ⟨rfl, rfl, rfl, rfl, rfl, rfl, rfl⟩

/-- C3: check with a false condition emits exactly one Error-level record
whose line contains the message, sets errno to 0, and jumps to the error
label; with a true condition it emits nothing, leaves errno unchanged and
does not jump.  The record is emitted whatever the stored minimum level,
because LOG_ERROR is the greatest enumerator. -/
theorem guard_transfer (s : LoggerState) (errno0 : Nat)
    (ts srcfile : String) (srcline : Int) (msg : String) :
    ((check s errno0 ts srcfile srcline false msg).jumped = true ∧
     (check s errno0 ts srcfile srcline false msg).errno = 0 ∧
     (∃ out, (check s errno0 ts srcfile srcline false msg).record
         = some out ∧
       out.level = LogLevel.error ∧ ∃ a b, out.line = a ++ msg ++ b)) ∧
    check s errno0 ts srcfile srcline true msg =
      { record := none, errno := errno0, jumped := false } :=
  ⟨⟨rfl, rfl, check_false_record s errno0 ts srcfile srcline msg⟩, rfl⟩

/-- C7 counterexample: with the minimum level set to LOG_INFO, check with
a false condition still emits an Error-level record, but check_debug with
the same false condition emits no record at all, because its LOG_DEBUG
message is suppressed by the level filter inside log_log.  So check_debug
does not behave identically to check with only the record's level
changed. -/
theorem check_debug_filtered_counterexample :
    (check_debug { log_level := LogLevel.info, log_file := none } 0 exTs
        exFile 3 false exReason).record = none ∧
    (check { log_level := LogLevel.info, log_file := none } 0 exTs
        exFile 3 false exReason).record =
      some { level := LogLevel.error, sink := Sink.stderr,
             line := "ERROR [2024-03-01 10:15:22] (x.c:3) reason\n",
             flushed := false } :=
  ⟨rfl, rfl⟩

/-- C7 amended: with a false condition, check_debug clears errno and
jumps to the error label exactly as check does, and it logs through the
Debug level rather than the Error level; consequently the record is
subject to level filtering: it is emitted (carrying LogLevel.debug and
containing the message) iff the stored minimum level is at most
LOG_DEBUG, and no record at all is emitted when the minimum level is
above LOG_DEBUG.  With a true condition it does nothing, as check
does. -/
theorem check_debug_amended (s : LoggerState) (errno0 : Nat)
    (ts srcfile : String) (srcline : Int) (msg : String) :
    ((check_debug s errno0 ts srcfile srcline false msg).jumped = true ∧
     (check_debug s errno0 ts srcfile srcline false msg).errno = 0 ∧
     (s.log_level.toNat ≤ LogLevel.debug.toNat →
       ∃ out, (check_debug s errno0 ts srcfile srcline false msg).record
           = some out ∧
         out.level = LogLevel.debug ∧ ∃ a b, out.line = a ++ msg ++ b) ∧
     (LogLevel.debug.toNat < s.log_level.toNat →
       (check_debug s errno0 ts srcfile srcline false msg).record
         = none)) ∧
    check_debug s errno0 ts srcfile srcline true msg =
      { record := none, errno := errno0, jumped := false } := by
  refine ⟨⟨rfl, rfl, ?_, ?_⟩, rfl⟩
  · intro hle
    cases hf : s.log_file with
    | none =>
      simp [check_debug, log_debug, log_log, hle, hf, log_line_eq]
      exact ⟨get_log_level_str LogLevel.debug ++ " [" ++ ts ++ "] ("
        ++ srcfile ++ ":" ++ toString srcline ++ ") ", "\n", rfl⟩
    | some hdl =>
      simp [check_debug, log_debug, log_log, hle, hf, log_line_eq]
      exact ⟨get_log_level_str LogLevel.debug ++ " [" ++ ts ++ "] ("
        ++ srcfile ++ ":" ++ toString srcline ++ ") ", "\n", rfl⟩
  · intro hgt
    have : ¬ s.log_level.toNat ≤ LogLevel.debug.toNat := by omega
    simp [check_debug, log_debug, log_log, this]

/-- Witness for C7's amended theorem: at the most permissive minimum
level the false-condition check_debug emits a Debug-level record
containing the message. -/
theorem check_debug_amended_witness :
    ∃ out, (check_debug { log_level := LogLevel.trace, log_file := none }
        0 exTs exFile 3 false exReason).record = some out ∧
      out.level = LogLevel.debug ∧ ∃ a b, out.line = a ++ exReason ++ b :=
  (check_debug_amended { log_level := LogLevel.trace, log_file := none }
    0 exTs exFile 3 exReason).1.2.2.1 (by decide)

/-- C9 counterexample: check_mem is not check with the message
"Out of memory" (no trailing period): at a concrete failing input the two
produce different records, because the macro's literal is
"Out of memory." with a trailing period. -/
theorem check_mem_message_counterexample :
    check_mem initState 0 exTs exFile 3 false ≠
      check initState 0 exTs exFile 3 false spec_check_mem_msg := by
  decide

/-- C9 amended: check_mem(pointer) is exactly check on that pointer with
the fixed message "Out of memory." (trailing period included): a
null/false pointer emits an Error-level record whose line contains
"Out of memory." and jumps to the error label after clearing errno, and a
non-null pointer does nothing. -/
theorem check_mem_amended (s : LoggerState) (errno0 : Nat)
    (ts srcfile : String) (srcline : Int) :
    (∀ a : Bool, check_mem s errno0 ts srcfile srcline a =
      check s errno0 ts srcfile srcline a check_mem_msg) ∧
    ((check_mem s errno0 ts srcfile srcline false).jumped = true ∧
     (check_mem s errno0 ts srcfile srcline false).errno = 0 ∧
     ∃ out, (check_mem s errno0 ts srcfile srcline false).record
         = some out ∧
       out.level = LogLevel.error ∧
       ∃ a b, out.line = a ++ check_mem_msg ++ b) ∧
    check_mem s errno0 ts srcfile srcline true =
      { record := none, errno := errno0, jumped := false } :=
  ⟨fun _ => rfl,
   ⟨rfl, rfl, check_false_record s errno0 ts srcfile srcline check_mem_msg⟩,
   rfl⟩

/-- C4: After log_set_file with a failed open (fopen returned NULL), no
error is reported (the operation only stores the result), the stored sink
handle is none whatever sink was active before, and every subsequent
log_log call that passes the level filter writes its record to stderr. -/
theorem sink_open_failure (s : LoggerState) (ts srcfile : String)
    (srcline : Int) (level : LogLevel) (msg : String)
    (h : (log_set_file s none).log_level.toNat ≤ level.toNat) :
    (log_set_file s none).log_file = none ∧
      ∃ out, (log_log (log_set_file s none) ts srcfile srcline level
          msg).2 = some out ∧ out.sink = Sink.stderr := by
  have hle : s.log_level.toNat ≤ level.toNat := by
    simpa [log_set_file] using h
  refine ⟨rfl, ?_⟩
  simp [log_log, log_set_file, hle, log_line_eq]

/-- Witness for C4: a failed open over a previously active file sink
leaves a null handle and sends the next passing record to stderr. -/
theorem sink_open_failure_witness :
    (log_set_file { log_level := LogLevel.trace, log_file := some 5 }
        none).log_file = none ∧
      ∃ out, (log_log (log_set_file
          { log_level := LogLevel.trace, log_file := some 5 } none)
          exTs exFile 10 LogLevel.info exMsg).2 = some out ∧
        out.sink = Sink.stderr :=
  sink_open_failure { log_level := LogLevel.trace, log_file := some 5 }
    exTs exFile 10 LogLevel.info exMsg (by decide)

/-- C5 (refuted by the code): get_time_str asks strftime to store its
expansion in at most sizeof(time_str) - 1 = 19 bytes including the
terminating null character, but the expansion of "%Y-%m-%d %H:%M:%S" is
19 characters, needing 20 bytes, so strftime always fails and the
function never returns the rendered timestamp: for every broken-down
time the model yields none, while the render itself, done correctly at
the sample time, is the 19-character "2024-03-01 10:15:22". -/
theorem get_time_str_never_renders :
    (∀ t : Tm, get_time_str t = none) ∧
    strftime_render exTm = "2024-03-01 10:15:22" ∧
    (strftime_render exTm).length = 19 ∧
    time_str_size - 1 < (strftime_render exTm).length + 1 ∧
    get_time_str exTm = none := by
  refine ⟨?_, rfl, rfl, by decide, rfl⟩
  intro t
  have hlen : 19 ≤ (strftime_render t).length := by
    have h4 : 4 ≤ (zero_pad 4 t.year).length := by
      simp [zero_pad, String.length_append]
      omega
    have h2 : ∀ n, 2 ≤ (zero_pad 2 n).length := by
      intro n
      simp [zero_pad, String.length_append]
      omega
    have hdash : ("-" : String).length = 1 := rfl
    have hspace : (" " : String).length = 1 := rfl
    have hcolon : (":" : String).length = 1 := rfl
    simp [strftime_render, String.length_append, hdash, hspace, hcolon]
    have := h2 t.month
    have := h2 t.day
    have := h2 t.hour
    have := h2 t.minute
    have := h2 t.second
    omega
  simp [get_time_str, strftime, time_str_size]
  omega

/-- C8: get_log_level_str is a pure function (repeated calls with the
same enumerator give identical strings); the five defined enumerators map
to the fixed names TRACE, DEBUG, INFO, WARN, ERROR, which are pairwise
distinct (the map is injective) and non-empty; and the underlying array
access is undefined (none) for every index outside the enumeration. -/
theorem level_name_props :
    (∀ l : LogLevel, get_log_level_str l = get_log_level_str l) ∧
    (get_log_level_str LogLevel.trace = "TRACE" ∧
     get_log_level_str LogLevel.debug = "DEBUG" ∧
     get_log_level_str LogLevel.info = "INFO" ∧
     get_log_level_str LogLevel.warn = "WARN" ∧
     get_log_level_str LogLevel.error = "ERROR") ∧
    (∀ l : LogLevel, get_log_level_str l ≠ "") ∧
    (∀ l1 l2 : LogLevel,
      get_log_level_str l1 = get_log_level_str l2 → l1 = l2) ∧
    (∀ n : Nat, 5 ≤ n → get_log_level_str_at n = none) := by
  refine ⟨fun l => rfl, ⟨rfl, rfl, rfl, rfl, rfl⟩, ?_, ?_, ?_⟩
  · intro l
    cases l <;> decide
  · intro l1 l2 h
    cases l1 <;> cases l2 <;> revert h <;> decide
  · intro n hn
    have hlen : level_str.length ≤ n := by simpa [level_str] using hn
    exact List.get?_eq_none.mpr hlen

/-- Witness for C8: the array access at index 7, outside the
enumeration, is undefined. -/
theorem level_name_props_witness : get_log_level_str_at 7 = none :=
  level_name_props.2.2.2.2 7 (by decide)

end DebugH
